import Mathlib

/-!
Shallow embedding of the authentication and session lifecycle of the
bizzleap-backend repository.

Sources embedded here:
* `src/server.js` — stateful auth gateway (`authenticateToken`), the inline
  register/login/logout handlers, profile update handler, startup order;
* `src/unnamed/part_002` — auth controller (`registerUser`, `loginUser`,
  `refreshToken`, `logoutUser`, `generateToken`), wired into the app by
  `src/routes/authRoutes.js`;
* `src/unnamed/part_004` — stateless auth middleware variant;
* `src/config/oauth.js` — `findOrCreateUser` (social identity linker);
* `src/unnamed/part_001` — SQL schema (`users`, `user_sessions` tables,
  utf8mb4_unicode_ci collation, hence case-insensitive `email = ?`);
* `src/unnamed/part_003` — startup IIFE of the alternative entry point.

Conventions of the embedding:
* time is in whole seconds (Nat); the JavaScript code mixes milliseconds
  (`Date.now()`) and seconds (JWT claims), but both expiry windows are the
  same 7 days, so a single unit is faithful;
* the `jsonwebtoken` library is an external collaborator; a signed token is
  modelled as its decoded claims plus a signature field that records which
  secret signed it, `verify` succeeds exactly when the secret matches and
  `clockTimestamp < exp` (the library throws TokenExpiredError when
  `clockTimestamp >= exp`);
* `bcrypt` is an external collaborator; hashing is modelled as an injective
  tagging function and `compare` as equality against the stored hash;
* SQL result sets are lists in table order; `WHERE email = ?` compares
  case-insensitively because the schema collation is utf8mb4_unicode_ci;
* a MySQL `UPDATE` touching no rows is a no-op, never an error.
-/

namespace BizzLeap

/-- `JWT_EXPIRES_IN = "7d"` (part_002 line 6) and `expiresIn: "7d"`
(server.js), in seconds. -/
def jwtExpiresInSeconds : Nat := 7 * 24 * 60 * 60

/-- Session expiry `Date.now() + 7 * 24 * 60 * 60 * 1000` (server.js), in
seconds. -/
def sessionTtlSeconds : Nat := 7 * 24 * 60 * 60

/-- Decoded JWT payload: `{ userId }` (part_002) or `{ userId, email }`
(server.js), plus the `exp` claim added by the library from `expiresIn`. -/
structure Claims where
  userId : Nat
  email : Option String
  exp : Nat
deriving DecidableEq, Repr

/-- A signed token: the payload together with the secret that signed it
(standing for the signature; verification against secret `s` succeeds only
when `sig = s`, which models unforgeability without the secret). -/
structure Token where
  claims : Claims
  sig : String
deriving DecidableEq, Repr

inductive JwtError where
  | badSignature
  | expired
deriving DecidableEq, Repr

/-- `jwt.sign(payload, secret, { expiresIn })`: payload with `exp` claim. -/
def jwtSign (userId : Nat) (email : Option String) (issuedAt : Nat)
    (secret : String) : Token :=
  { claims := { userId := userId, email := email,
                exp := issuedAt + jwtExpiresInSeconds },
    sig := secret }

/-- `jwt.verify(token, secret)` at clock instant `now`: checks the
signature, then throws TokenExpiredError iff `now >= exp`. -/
def jwtVerify (t : Token) (secret : String) (now : Nat) :
    Except JwtError Claims :=
  if t.sig ≠ secret then .error .badSignature
  else if t.claims.exp ≤ now then .error .expired
  else .ok t.claims

/-- `generateToken(userId)` of part_002 lines 9-11:
`jwt.sign({ userId }, JWT_SECRET, { expiresIn: JWT_EXPIRES_IN })`. -/
def generateToken (userId : Nat) (issuedAt : Nat) (secret : String) : Token :=
  jwtSign userId none issuedAt secret

/-- `bcrypt.hash(password, 12)` modelled as an injective tagging. -/
def bcryptHash (password : String) : String :=
  "bcrypt2b12" ++ password

/-- `bcrypt.compare(password, storedHash)`; a row with SQL NULL password
(social-only account) never compares equal. -/
def bcryptCompare (password : String) (storedHash : Option String) : Bool :=
  match storedHash with
  | some h => h == bcryptHash password
  | none => false

/-- Lowercasing (`email.toLowerCase()` in JS, and the case-folding of the
utf8mb4_unicode_ci collation restricted to the ASCII range), written as a
structural map over the character list so that it evaluates. -/
def lowerStr (s : String) : String :=
  String.mk (s.data.map Char.toLower)

/-- `String.prototype.trim`: strip whitespace from both ends. -/
def trimStr (s : String) : String :=
  String.mk
    (((s.data.dropWhile Char.isWhitespace).reverse.dropWhile
        Char.isWhitespace).reverse)

/-- Split a character list at every occurrence of `sep` (the semantics of
JS `String.prototype.split` with a one-character separator). -/
def splitOnCharList (sep : Char) : List Char → List (List Char)
  | [] => [[]]
  | c :: rest =>
    let r := splitOnCharList sep rest
    if c = sep then [] :: r
    else
      match r with
      | h :: t => (c :: h) :: t
      | [] => [[c]]

/-- `s.split(sep)` for a one-character separator. -/
def splitOnChar (sep : Char) (s : String) : List String :=
  (splitOnCharList sep s.data).map String.mk

/-- A row of the `users` table (part_001 schema), restricted to the columns
the authentication core reads or writes. -/
structure UserRow where
  id : Nat
  email : Option String
  password : Option String
  firstName : String
  lastName : String
  role : Option String
  socialId : Option String
  socialProvider : Option String
  avatar : Option String
  emailVerified : Bool
  isActive : Bool
  lastLogin : Option Nat
deriving DecidableEq, Repr

/-- A row of the `user_sessions` table (part_001 schema lines 414-436). -/
structure SessionRow where
  id : Nat
  userId : Nat
  token : Token
  deviceInfo : Option String
  ipAddress : Option String
  userAgent : Option String
  isActive : Bool
  createdAt : Nat
  expiresAt : Nat
  lastUsedAt : Nat
deriving DecidableEq, Repr

/-- The relational store: both tables plus the AUTO_INCREMENT counters. -/
structure DB where
  users : List UserRow
  sessions : List SessionRow
  nextUserId : Nat
  nextSessionId : Nat
deriving DecidableEq, Repr

/-- SQL `email = ?` under the utf8mb4_unicode_ci collation: case-insensitive
equality; a NULL column never equals a non-NULL parameter. -/
def emailCi (column : Option String) (param : String) : Bool :=
  match column with
  | some e => lowerStr e == lowerStr param
  | none => false

/-- `SELECT ... FROM users WHERE email = ?` in table order. -/
def usersByEmail (db : DB) (email : String) : List UserRow :=
  db.users.filter (fun u => emailCi u.email email)

/-- HTTP response, restricted to the JSON fields the claims talk about. -/
structure Response where
  status : Nat
  error : Option String
  message : Option String
  token : Option Token
deriving DecidableEq, Repr

def Response.mkErr (status : Nat) (error : String) : Response :=
  { status := status, error := some error, message := none, token := none }

def Response.mkErrMsg (status : Nat) (error msg : String) : Response :=
  { status := status, error := some error, message := some msg, token := none }

/-- Outcome of an authentication middleware: either the request proceeds
with an identity bound (`passed`, carrying `req.user.userId`, the
`req.sessionId` set by the stateful variant, and the store state after its
side effects), or the middleware responded early (`rejected`). -/
inductive AuthOutcome where
  | passed (userId : Nat) (sessionId : Option Nat) (db : DB)
  | rejected (resp : Response)
deriving DecidableEq, Repr

/-- `UPDATE user_sessions SET isActive = 0 WHERE token = ?` — the revoke
statement shared by both logout handlers (server.js line 425, part_002
line 275). Touching zero rows is not an error. -/
def revokeToken (db : DB) (t : Token) : DB :=
  { db with
    sessions := db.sessions.map
      (fun s => if s.token == t then { s with isActive := false } else s) }

/-- The SQL predicate of the stateful gateway's session lookup:
`token = ? AND isActive = 1 AND expiresAt > NOW()`. -/
def liveSession (t : Token) (now : Nat) (s : SessionRow) : Bool :=
  s.token == t && s.isActive && decide (now < s.expiresAt)

/-- `authenticateToken` of src/server.js lines 178-212 (the stateful Auth
Gateway): extract bearer token, `jwt.verify`, then require a matching
active non-expired `user_sessions` row; on success bump `lastUsedAt` and
attach the decoded identity. Any `jwt.verify` throw lands in the catch
(`403 Invalid token`). -/
def authenticateToken (db : DB) (secret : String) (now : Nat)
    (bearer : Option Token) : AuthOutcome :=
  match bearer with
  | none => .rejected (.mkErr 401 "Access token required")
  | some t =>
    match jwtVerify t secret now with
    | .error _ => .rejected (.mkErr 403 "Invalid token")
    | .ok decoded =>
      match db.sessions.find? (liveSession t now) with
      | none => .rejected (.mkErr 403 "Invalid or expired token")
      | some s =>
        let db' := { db with
          sessions := db.sessions.map
            (fun r => if r.token == t then { r with lastUsedAt := now }
                      else r) }
        .passed decoded.userId (some s.id) db'

/-- `authenticateToken` of src/unnamed/part_004 lines 6-66 (the stateless
middleware variant): `jwt.verify`, then only `SELECT id FROM users WHERE
id = ?` — no session-registry check and no isActive filter. -/
def middlewareAuthenticateToken (db : DB) (secret : String) (now : Nat)
    (bearer : Option Token) : AuthOutcome :=
  match bearer with
  | none => .rejected (.mkErrMsg 401 "Access denied" "No token provided")
  | some t =>
    match jwtVerify t secret now with
    | .error .badSignature =>
        .rejected (.mkErrMsg 401 "Invalid token" "Token is malformed")
    | .error .expired =>
        .rejected (.mkErrMsg 401 "Token expired" "Please login again")
    | .ok decoded =>
      if db.users.any (fun u => u.id == decoded.userId) then
        .passed decoded.userId none db
      else
        .rejected (.mkErrMsg 401 "Invalid token" "User not found")

/-- `logoutUser` of src/unnamed/part_002 lines 267-291: if a bearer token
is present, run the revoke UPDATE; always answer 200. -/
def logoutUser (db : DB) (bearer : Option Token) : Response × DB :=
  match bearer with
  | some t =>
    ({ status := 200, error := none, message := some "Logout successful",
       token := none }, revokeToken db t)
  | none =>
    ({ status := 200, error := none, message := some "Logout successful",
       token := none }, db)

/-- The POST /api/auth/logout route registered in src/server.js line 418:
the stateful `authenticateToken` guard composed with the handler body
(lines 419-433), which re-extracts the token and runs the revoke UPDATE. -/
def serverLogoutRoute (db : DB) (secret : String) (now : Nat)
    (bearer : Option Token) : Response × DB :=
  match authenticateToken db secret now bearer with
  | .rejected r => (r, db)
  | .passed _ _ db' =>
    match bearer with
    | some t =>
      ({ status := 200, error := none,
         message := some "Logged out successfully", token := none },
       revokeToken db' t)
    | none =>
      ({ status := 200, error := none,
         message := some "Logged out successfully", token := none }, db')

/-- `loginUser` of src/unnamed/part_002 lines 118-178: falsy-field check,
then `SELECT ... FROM users WHERE email = ?` (no isActive filter), first
row, `bcrypt.compare`, and a fresh `generateToken` on success. The
controller stores no session and updates no lastLogin. -/
def loginUser (db : DB) (secret : String) (now : Nat)
    (email password : String) : Response :=
  if email = "" ∨ password = "" then
    .mkErr 400 "Email and password are required"
  else
    match usersByEmail db email with
    | [] => .mkErrMsg 401 "Invalid credentials" "Email or password is incorrect"
    | u :: _ =>
      if bcryptCompare password u.password then
        { status := 200, error := none, message := some "Login successful",
          token := some (generateToken u.id now secret) }
      else
        .mkErrMsg 401 "Invalid credentials" "Email or password is incorrect"

/-- `INSERT INTO user_sessions (userId, token, deviceInfo, ipAddress,
userAgent, expiresAt) VALUES (...)` as issued by the server.js handlers. -/
def insertSession (db : DB) (userId : Nat) (t : Token)
    (deviceInfo ipAddress userAgent : Option String) (now : Nat) : DB :=
  { db with
    sessions := db.sessions ++
      [{ id := db.nextSessionId, userId := userId, token := t,
         deviceInfo := deviceInfo, ipAddress := ipAddress,
         userAgent := userAgent, isActive := true, createdAt := now,
         expiresAt := now + sessionTtlSeconds, lastUsedAt := now }],
    nextSessionId := db.nextSessionId + 1 }

/-- The POST /api/auth/login handler body of src/server.js lines 349-415:
`SELECT * FROM users WHERE email = ? AND isActive = 1`, `bcrypt.compare`,
lastLogin bump, `jwt.sign({userId, email})`, session insert. Both failure
causes answer the same `400 Invalid credentials`. -/
def serverLogin (db : DB) (secret : String) (now : Nat)
    (email password : String)
    (deviceInfo ipAddress userAgent : Option String) : Response × DB :=
  match db.users.filter (fun u => emailCi u.email email && u.isActive) with
  | [] => (.mkErr 400 "Invalid credentials", db)
  | u :: _ =>
    if bcryptCompare password u.password then
      let db1 := { db with
        users := db.users.map
          (fun v => if v.id == u.id then { v with lastLogin := some now }
                    else v) }
      let t := jwtSign u.id u.email now secret
      ({ status := 200, error := none, message := some "Login successful",
         token := some t },
       insertSession db1 u.id t deviceInfo ipAddress userAgent now)
    else
      (.mkErr 400 "Invalid credentials", db)

/-- Character class `[^\s@]` of the part_002 email regex (`\s` read as
Unicode whitespace). -/
def emailChar (c : Char) : Bool :=
  !(c = '@' || c.isWhitespace)

/-- The part_002 email check `/^[^\s@]+@[^\s@]+\.[^\s@]+$/`: exactly one
`@`; nonempty local part of allowed characters; a domain of allowed
characters containing a `.` that is neither its first nor its last
character (the surrounding `[^\s@]+` runs may themselves contain dots). -/
def emailFormatOk (e : String) : Bool :=
  match splitOnCharList '@' e.data with
  | [lp, dcs] =>
    decide (0 < lp.length) && lp.all emailChar && dcs.all emailChar &&
      (List.range dcs.length).any
        (fun i => dcs.get? i == some '.' && decide (0 < i) &&
          decide (i + 1 < dcs.length))
  | _ => false

/-- `registerUser` of src/unnamed/part_002 lines 14-115. The check-then-
insert pair is not one transaction, so the store may have changed between
the pre-check and the INSERT: `dbPre` is the state the pre-check reads,
`dbIns` the state the INSERT runs against. The INSERT raises ER_DUP_ENTRY
exactly when the case-insensitive unique constraint on `email` is violated
at insert time, and the catch maps that to the same 409 as the pre-check. -/
def registerUser (dbPre dbIns : DB) (secret : String) (now : Nat)
    (firstName lastName email password : String) : Response × DB :=
  if firstName = "" ∨ lastName = "" ∨ email = "" ∨ password = "" then
    (.mkErr 400 "All fields are required", dbIns)
  else if ¬ emailFormatOk email then
    (.mkErr 400 "Invalid email format", dbIns)
  else if password.length < 8 then
    (.mkErr 400 "Password must be at least 8 characters long", dbIns)
  else if usersByEmail dbPre (lowerStr email) ≠ [] then
    (.mkErrMsg 409 "User already exists"
      "An account with this email address already exists", dbIns)
  else if usersByEmail dbIns (lowerStr email) ≠ [] then
    -- INSERT hits the unique constraint: ER_DUP_ENTRY handler, line 103
    (.mkErrMsg 409 "User already exists"
      "An account with this email address already exists", dbIns)
  else
    let newUser : UserRow :=
      { id := dbIns.nextUserId, email := some (lowerStr email),
        password := some (bcryptHash password),
        firstName := trimStr firstName, lastName := trimStr lastName,
        role := none, socialId := none, socialProvider := none,
        avatar := none, emailVerified := false, isActive := true,
        lastLogin := none }
    let db' := { dbIns with
                 users := dbIns.users ++ [newUser]
                 nextUserId := dbIns.nextUserId + 1 }
    ({ status := 201, error := none,
       message := some "User registered successfully",
       token := some (generateToken newUser.id now secret) }, db')

/-- The POST /api/auth/register handler body of src/server.js lines
285-346 (after its express-validator chain): pre-check answers
`400 User already exists`; an ER_DUP_ENTRY from the INSERT has no special
handler and falls into the generic catch (`500 Internal server error`).
As in `registerUser`, `dbPre`/`dbIns` are the pre-check and insert-time
states of the non-transactional check-then-insert pair. -/
def serverRegister (dbPre dbIns : DB) (secret : String) (now : Nat)
    (firstName lastName email password : String)
    (deviceInfo ipAddress userAgent : Option String) : Response × DB :=
  if usersByEmail dbPre email ≠ [] then
    (.mkErr 400 "User already exists", dbIns)
  else if usersByEmail dbIns email ≠ [] then
    (.mkErr 500 "Internal server error", dbIns)
  else
    let newUser : UserRow :=
      { id := dbIns.nextUserId, email := some email,
        password := some (bcryptHash password),
        firstName := firstName, lastName := lastName,
        role := none, socialId := none, socialProvider := none,
        avatar := none, emailVerified := false, isActive := true,
        lastLogin := none }
    let db1 := { dbIns with
                 users := dbIns.users ++ [newUser]
                 nextUserId := dbIns.nextUserId + 1 }
    let t := jwtSign newUser.id (some email) now secret
    ({ status := 201, error := none,
       message := some "User created successfully", token := some t },
     insertSession db1 newUser.id t deviceInfo ipAddress userAgent now)

/-- `refreshToken` of src/unnamed/part_002 lines 216-264: `jwt.verify` the
old token (any throw answers `401 Invalid or expired token`), require the
referenced user to exist with `isActive = 1`, mint a new token, then
`UPDATE user_sessions SET token = ?, lastUsedAt = NOW() WHERE userId = ?
AND isActive = 1` — an UPDATE of existing rows, not an INSERT. -/
def refreshToken (db : DB) (secret : String) (now : Nat)
    (bearer : Option Token) : Response × DB :=
  match bearer with
  | none => (.mkErr 401 "No token provided", db)
  | some t =>
    match jwtVerify t secret now with
    | .error _ => (.mkErr 401 "Invalid or expired token", db)
    | .ok decoded =>
      if db.users.any (fun u => u.id == decoded.userId && u.isActive) then
        let newToken := generateToken decoded.userId now secret
        let db' := { db with
          sessions := db.sessions.map
            (fun s =>
              if s.userId == decoded.userId && s.isActive then
                { s with token := newToken, lastUsedAt := now }
              else s) }
        ({ status := 200, error := none, message := none,
           token := some newToken }, db')
      else
        (.mkErr 401 "Invalid token", db)

/-- A passport provider profile, as consumed by `findOrCreateUser`:
`{ id, emails[], name: {givenName, familyName}, displayName, photos[] }`.
The provider-assigned `id` is always present. -/
structure Profile where
  id : String
  emails : List String
  givenName : Option String
  familyName : Option String
  displayName : Option String
  photos : List String
deriving DecidableEq, Repr

/-- `profile.emails && profile.emails[0] ? profile.emails[0].value : null`. -/
def Profile.emailVal (p : Profile) : Option String :=
  p.emails.head?

/-- JS truthiness of the `email` local (`if (email)`): present and not the
empty string. -/
def Profile.emailTruthy (p : Profile) : Bool :=
  match p.emailVal with
  | some e => e ≠ ""
  | none => false

/-- `profile.name?.givenName || profile.displayName?.split(" ")[0] || ""`. -/
def Profile.firstNameOf (p : Profile) : String :=
  match p.givenName with
  | some g => if g = "" then
      (match p.displayName with
       | some d => ((splitOnChar ' ' d).headD "")
       | none => "")
    else g
  | none =>
    match p.displayName with
    | some d => ((splitOnChar ' ' d).headD "")
    | none => ""

/-- `profile.name?.familyName || profile.displayName?.split(" ")[1] || ""`. -/
def Profile.lastNameOf (p : Profile) : String :=
  match p.familyName with
  | some f => if f = "" then
      (match p.displayName with
       | some d => ((splitOnChar ' ' d).getD 1 "")
       | none => "")
    else f
  | none =>
    match p.displayName with
    | some d => ((splitOnChar ' ' d).getD 1 "")
    | none => ""

/-- `WHERE socialId = ? AND socialProvider = ?` with non-NULL parameters. -/
def socialMatch (pid provider : String) (u : UserRow) : Bool :=
  u.socialId == some pid && u.socialProvider == some provider

/-- The linking UPDATE of src/config/oauth.js lines 50-53:
`SET socialId = ?, socialProvider = ?, avatar = ? WHERE id = ?`. -/
def linkSocial (pid provider : String) (avatar : Option String)
    (u : UserRow) : UserRow :=
  { u with socialId := some pid, socialProvider := some provider,
           avatar := avatar }

/-- Step 2's lookup of `findOrCreateUser`: the email match is attempted
only when the profile email is truthy (`if (email)` in JS). -/
def emailLookup (p : Profile) (db : DB) : Option UserRow :=
  if p.emailTruthy then
    match p.emailVal with
    | some e => db.users.find? (fun u => emailCi u.email e)
    | none => none
  else none

/-- The linking UPDATE applied to the store:
`UPDATE users SET socialId = ?, socialProvider = ?, avatar = ?
WHERE id = ?`. -/
def linkUpdate (p : Profile) (provider : String) (k : Nat) (db : DB) : DB :=
  { db with
    users := db.users.map
      (fun v => if v.id == k then linkSocial p.id provider p.photos.head? v
                else v) }

/-- The row built by step 3's INSERT: no password, `emailVerified = 1`,
`profileSetup = 0`, names derived from the provider profile. -/
def mkSocialUser (p : Profile) (provider : String) (uid : Nat)
    (e : String) : UserRow :=
  { id := uid, email := some e, password := none,
    firstName := p.firstNameOf, lastName := p.lastNameOf, role := none,
    socialId := some p.id, socialProvider := some provider,
    avatar := p.photos.head?, emailVerified := true, isActive := true,
    lastLogin := none }

/-- Append a freshly inserted user row and advance AUTO_INCREMENT. -/
def insertUser (db : DB) (nu : UserRow) : DB :=
  { db with
    users := db.users ++ [nu]
    nextUserId := db.nextUserId + 1 }

/-- `findOrCreateUser(profile, provider)` of src/config/oauth.js lines
25-82. Step 1: return the first user matching `(socialId, socialProvider)`.
Step 2: if the profile email is truthy, link it onto the first user with
that email (the function returns the row object fetched *before* the
UPDATE). Step 3: insert a new user and return the row re-fetched by
`insertId`; the INSERT throws when `email` is NULL (the schema column is
NOT NULL) or when the unique constraint on `email` is violated, and the
function rethrows (`.error`). -/
def findOrCreateUser (p : Profile) (provider : String) (db : DB) :
    Except Unit (UserRow × DB) :=
  match db.users.find? (socialMatch p.id provider) with
  | some u => .ok (u, db)
  | none =>
    match emailLookup p db with
    | some u => .ok (u, linkUpdate p provider u.id db)
    | none =>
      match p.emailVal with
      | none => .error ()  -- INSERT with NULL email: NOT NULL violation
      | some e =>
        if (db.users.filter (fun u => emailCi u.email e)) ≠ [] then
          .error ()  -- unique constraint on email: ER_DUP_ENTRY rethrown
        else
          match (insertUser db (mkSocialUser p provider db.nextUserId
              e)).users.find? (fun v => v.id == db.nextUserId) with
          | some fetched =>
            .ok (fetched, insertUser db (mkSocialUser p provider
              db.nextUserId e))
          | none => .error ()

/-- Observable startup events: binding the HTTP listener, and terminating
the process with an exit code. -/
inductive StartupEvent where
  | listen
  | exitProcess (code : Nat)
deriving DecidableEq, Repr

/-- Startup order of src/server.js as a trace over the initial-connect
outcome: module evaluation calls `connectDB().catch(...)` (line 34) and
then runs synchronously through `app.listen` (line 1585); the catch
callback — and hence `process.exit(1)` — can only run after module
evaluation completes, so the listener is bound in either case. -/
def serverStartupTrace (connectOk : Bool) : List StartupEvent :=
  if connectOk then [.listen] else [.listen, .exitProcess 1]

/-- Startup order of the src/unnamed/part_003 IIFE (lines 104-120):
`await connectDB()` precedes `app.listen`, and the catch exits with code 1
without ever binding the listener. -/
def part003StartupTrace (connectOk : Bool) : List StartupEvent :=
  if connectOk then [.listen] else [.exitProcess 1]

/-- A post-startup request against the store, via the GET /api/health
handler of src/server.js lines 254-273: a failing store round-trip is
caught and answered with a 500; the handler never terminates the
process. -/
def healthCheck (storeUp : Bool) : Response :=
  if storeUp then
    { status := 200, error := none, message := none, token := none }
  else
    .mkErr 500 "Database connection failed"

/-- The `allowedUpdates` list of the PUT /api/user/profile handler,
src/server.js lines 652-678. -/
def allowedUpdates : List String :=
  ["firstName", "lastName", "role", "phone", "bio", "country", "state",
   "city", "location", "zipCode", "profileSetup", "farmName", "farmSize",
   "farmType", "productsGrown", "organicCertified", "businessName",
   "businessType", "servicesOffered", "yearsInBusiness", "website",
   "buyerType", "interests", "monthlyBudget", "currency"]

/-- `Object.keys(req.body).forEach(... if (allowedUpdates.includes(key))
updates[key] = req.body[key])`: the body keys that survive the allow-list
filter (later duplicates overwrite earlier ones, JS-object style). -/
def profileSetColumns (body : List (String × String)) :
    List (String × String) :=
  body.filter (fun kv => allowedUpdates.contains kv.1)

/-- The user row as the UPDATE statement sees it: column name to value.
`UPDATE users SET <setClause> WHERE id = ?` writes exactly the filtered
columns and leaves every other column of the row untouched; when no valid
field remains the handler answers 400 and issues no UPDATE at all. -/
def applyProfileUpdate (row : String → Option String)
    (body : List (String × String)) : String → Option String :=
  let updates := profileSetColumns body
  if updates.isEmpty then row
  else fun col =>
    match (updates.reverse.find? (fun kv => kv.1 == col)) with
    | some kv => some kv.2
    | none => row col

/-! ### Concrete fixtures used by counterexamples and witnesses -/

def secretW : String := "jwtsecret"

/-- A token issued to user 1 at instant 0 by `generateToken`. -/
def tokenW : Token := generateToken 1 0 secretW

def userW : UserRow :=
  { id := 1, email := some "a@x.com",
    password := some (bcryptHash "password123"), firstName := "A",
    lastName := "B", role := none, socialId := none,
    socialProvider := none, avatar := none, emailVerified := false,
    isActive := true, lastLogin := none }

def sessionW : SessionRow :=
  { id := 1, userId := 1, token := tokenW, deviceInfo := none,
    ipAddress := none, userAgent := none, isActive := true,
    createdAt := 0, expiresAt := sessionTtlSeconds, lastUsedAt := 0 }

def dbW : DB :=
  { users := [userW], sessions := [sessionW], nextUserId := 2,
    nextSessionId := 2 }

def dbEmpty : DB :=
  { users := [], sessions := [], nextUserId := 1, nextSessionId := 1 }

/-! ### Helper lemmas -/

/-- After the revoke UPDATE, no session row with the revoked token passes
the stateful gateway's `isActive = 1 AND expiresAt > NOW()` lookup. -/
theorem find_live_after_revoke (l : List SessionRow) (t : Token) (now : Nat) :
    (l.map (fun s => if s.token == t then { s with isActive := false }
                     else s)).find? (liveSession t now) = none := by
  induction l with
  | nil => rfl
  | cons s rest ih =>
    by_cases h : s.token == t
    · simp only [List.map_cons, h, if_pos, List.find?_cons]
      have : liveSession t now { s with isActive := false } = false := by
        simp [liveSession, h]
      rw [this]
      exact ih
    · simp only [List.map_cons, h, if_neg, List.find?_cons,
        Bool.not_eq_true]
      have : liveSession t now s = false := by
        simp [liveSession]
        intro hc
        exact absurd hc (by simpa using h)
      rw [this]
      exact ih

/-! ### C1 — revoked token versus the two auth gateways -/

/-- C1 counterexample: a token whose session row the logout UPDATE has set
to `isActive = 0` still signature-verifies, yet the auth-gateway variant of
src/unnamed/part_004 (which never consults `user_sessions`) authenticates
the request instead of rejecting it. -/
theorem c1_stateless_gateway_accepts_revoked :
    jwtVerify tokenW secretW 100 = .ok tokenW.claims ∧
    (revokeToken dbW tokenW).sessions.all (fun s => !s.isActive) = true ∧
    middlewareAuthenticateToken (revokeToken dbW tokenW) secretW 100
      (some tokenW) = .passed 1 none (revokeToken dbW tokenW) :=
  ⟨rfl, by decide, by decide⟩

/-- C1 (amended): after the logout revoke UPDATE, the stateful Auth
Gateway of src/server.js rejects the token with `403 Invalid or expired
token` even though `jwt.verify` on the token alone still succeeds; the
stateless part_004 middleware variant keeps accepting it. -/
theorem c1_stateful_gateway_rejects_revoked (db : DB) (secret : String)
    (now : Nat) (t : Token) (c : Claims)
    (h : jwtVerify t secret now = .ok c) :
    authenticateToken (revokeToken db t) secret now (some t) =
      .rejected (.mkErr 403 "Invalid or expired token") := by
  simp only [authenticateToken, revokeToken, h, find_live_after_revoke]

/-- Witness for C1's amended theorem at the concrete fixture state. -/
theorem c1_stateful_gateway_rejects_revoked_witness :
    authenticateToken (revokeToken dbW tokenW) secretW 100 (some tokenW) =
      .rejected (.mkErr 403 "Invalid or expired token") :=
  c1_stateful_gateway_rejects_revoked dbW secretW 100 tokenW tokenW.claims
    rfl

/-! ### C2 — duplicate registration -/

/-- C2 counterexample: in the inline POST /api/auth/register handler of
src/server.js, a second registration with an already-taken email is
answered by the pre-check with status 400, not 409 Conflict. -/
theorem c2_server_register_duplicate_not_conflict :
    (serverRegister dbW dbW secretW 0 "A" "B" "a@x.com" "password123"
        none none none).1.status = 400 ∧
    (serverRegister dbW dbW secretW 0 "A" "B" "a@x.com" "password123"
        none none none).1.status ≠ 409 :=
  ⟨by decide, by decide⟩

/-- C2 (amended): for valid registration input, the authRoutes controller
`registerUser` answers 409 Conflict on a duplicate case-insensitive email
whether the duplicate is seen by the pre-check or only by the unique
constraint at insert time (ER_DUP_ENTRY); the inline server.js handler
instead answers 400 from its pre-check and 500 when the constraint fires. -/
theorem c2_register_conflict_both_paths (dbPre dbIns : DB)
    (secret : String) (now : Nat) (f l e p : String)
    (hf : f ≠ "") (hl : l ≠ "") (he0 : e ≠ "") (hp0 : p ≠ "")
    (he : emailFormatOk e = true) (hp : ¬ p.length < 8) :
    (usersByEmail dbPre (lowerStr e) ≠ [] →
      (registerUser dbPre dbIns secret now f l e p).1 =
        .mkErrMsg 409 "User already exists"
          "An account with this email address already exists") ∧
    (usersByEmail dbPre (lowerStr e) = [] →
      usersByEmail dbIns (lowerStr e) ≠ [] →
      (registerUser dbPre dbIns secret now f l e p).1 =
        .mkErrMsg 409 "User already exists"
          "An account with this email address already exists") ∧
    (usersByEmail dbPre e ≠ [] →
      (serverRegister dbPre dbIns secret now f l e p none none none).1 =
        .mkErr 400 "User already exists") ∧
    (usersByEmail dbPre e = [] → usersByEmail dbIns e ≠ [] →
      (serverRegister dbPre dbIns secret now f l e p none none none).1 =
        .mkErr 500 "Internal server error") := by
  refine ⟨?_, ?_, ?_, ?_⟩
  · intro hd
    simp [registerUser, hf, hl, he0, hp0, he, hp, hd]
  · intro h1 h2
    simp [registerUser, hf, hl, he0, hp0, he, hp, h1, h2]
  · intro hd
    simp [serverRegister, hd]
  · intro h1 h2
    simp [serverRegister, h1, h2]

/-- Witness for C2's amended theorem: both controller paths yield 409 and
both server.js paths yield 400/500 at concrete states. -/
theorem c2_register_conflict_both_paths_witness :
    (registerUser dbW dbW secretW 0 "A" "B" "a@x.com" "password123").1 =
      .mkErrMsg 409 "User already exists"
        "An account with this email address already exists" ∧
    (registerUser dbEmpty dbW secretW 0 "A" "B" "a@x.com"
        "password123").1 =
      .mkErrMsg 409 "User already exists"
        "An account with this email address already exists" ∧
    (serverRegister dbW dbW secretW 0 "A" "B" "a@x.com" "password123"
        none none none).1 = .mkErr 400 "User already exists" ∧
    (serverRegister dbEmpty dbW secretW 0 "A" "B" "a@x.com" "password123"
        none none none).1 = .mkErr 500 "Internal server error" := by
  have h := c2_register_conflict_both_paths dbW dbW secretW 0
    "A" "B" "a@x.com" "password123" (by decide) (by decide) (by decide)
    (by decide) (by decide) (by decide)
  have h2 := c2_register_conflict_both_paths dbEmpty dbW secretW 0
    "A" "B" "a@x.com" "password123" (by decide) (by decide) (by decide)
    (by decide) (by decide) (by decide)
  exact ⟨h.1 (by decide), h2.2.1 (by decide) (by decide),
    h.2.2.1 (by decide), h2.2.2.2 (by decide) (by decide)⟩

/-! ### C3 — indistinguishable login failures -/

/-- C3: in each login implementation, a wrong password for an existing
email and a nonexistent email produce literally the same response (status,
error and message): `401 Invalid credentials / Email or password is
incorrect` in the authRoutes controller, `400 Invalid credentials` in the
inline server.js handler. -/
theorem c3_login_failures_indistinguishable (db : DB) (secret : String)
    (now : Nat) (e p : String) (he : e ≠ "") (hp : p ≠ "") :
    (usersByEmail db e = [] →
      loginUser db secret now e p =
        .mkErrMsg 401 "Invalid credentials"
          "Email or password is incorrect") ∧
    (∀ u rest h, usersByEmail db e = u :: rest → u.password = some h →
      h ≠ bcryptHash p →
      loginUser db secret now e p =
        .mkErrMsg 401 "Invalid credentials"
          "Email or password is incorrect") ∧
    (db.users.filter (fun u => emailCi u.email e && u.isActive) = [] →
      (serverLogin db secret now e p none none none).1 =
        .mkErr 400 "Invalid credentials") ∧
    (∀ u rest h,
      db.users.filter (fun u => emailCi u.email e && u.isActive) =
        u :: rest →
      u.password = some h → h ≠ bcryptHash p →
      (serverLogin db secret now e p none none none).1 =
        .mkErr 400 "Invalid credentials") := by
  refine ⟨?_, ?_, ?_, ?_⟩
  · intro hnil
    simp [loginUser, he, hp, hnil]
  · intro u rest h hcons hpw hne
    simp [loginUser, he, hp, hcons, bcryptCompare, hpw, hne]
  · intro hnil
    simp [serverLogin, hnil]
  · intro u rest h hcons hpw hne
    simp [serverLogin, hcons, bcryptCompare, hpw, hne]

/-- Witness for C3 at concrete states: nonexistent email (empty store) and
wrong password for the fixture user give the same response, per handler. -/
theorem c3_login_failures_indistinguishable_witness :
    loginUser dbEmpty secretW 0 "a@x.com" "pw" =
      .mkErrMsg 401 "Invalid credentials"
        "Email or password is incorrect" ∧
    loginUser dbW secretW 0 "a@x.com" "wrongpass" =
      .mkErrMsg 401 "Invalid credentials"
        "Email or password is incorrect" ∧
    (serverLogin dbEmpty secretW 0 "a@x.com" "pw" none none none).1 =
      .mkErr 400 "Invalid credentials" ∧
    (serverLogin dbW secretW 0 "a@x.com" "wrongpass" none none none).1 =
      .mkErr 400 "Invalid credentials" := by
  have h1 := c3_login_failures_indistinguishable dbEmpty secretW 0
    "a@x.com" "pw" (by decide) (by decide)
  have h2 := c3_login_failures_indistinguishable dbW secretW 0
    "a@x.com" "wrongpass" (by decide) (by decide)
  exact ⟨h1.1 (by decide),
    h2.2.1 userW [] (bcryptHash "password123") (by decide) rfl (by decide),
    h1.2.2.1 (by decide),
    h2.2.2.2 userW [] (bcryptHash "password123") (by decide) rfl
      (by decide)⟩

/-! ### C4 — token issuance round-trip and expiry -/

/-- C4: a token minted by `generateToken(userId)` verifies back to the
same `userId` at every instant strictly before `issuedAt + 7d`, and
`jwt.verify` fails with the Expired error at every instant from that
expiry on. -/
theorem c4_token_roundtrip_and_expiry (userId issuedAt now : Nat)
    (secret : String) :
    (now < issuedAt + jwtExpiresInSeconds →
      jwtVerify (generateToken userId issuedAt secret) secret now =
        .ok { userId := userId, email := none,
              exp := issuedAt + jwtExpiresInSeconds }) ∧
    (issuedAt + jwtExpiresInSeconds ≤ now →
      jwtVerify (generateToken userId issuedAt secret) secret now =
        .error .expired) := by
  constructor
  · intro hlt
    have hnle : ¬ (issuedAt + jwtExpiresInSeconds ≤ now) :=
      Nat.not_le.mpr hlt
    simp [jwtVerify, generateToken, jwtSign, hnle]
  · intro hle
    simp [jwtVerify, generateToken, jwtSign, hle]

/-- Witness for C4 at a concrete token: valid shortly after issuance,
expired after the 7-day window. -/
theorem c4_token_roundtrip_and_expiry_witness :
    jwtVerify (generateToken 7 0 "s") "s" 3 =
      .ok { userId := 7, email := none, exp := 0 + jwtExpiresInSeconds } ∧
    jwtVerify (generateToken 7 0 "s") "s" (2 * jwtExpiresInSeconds) =
      .error .expired :=
  ⟨(c4_token_roundtrip_and_expiry 7 0 3 "s").1 (by decide),
   (c4_token_roundtrip_and_expiry 7 0 (2 * jwtExpiresInSeconds) "s").2
     (by decide)⟩

/-! ### C6 — token refresh -/

/-- C6 counterexample: a refresh with a verifying token for an active user
succeeds (200) but inserts no new `user_sessions` row — the row count is
unchanged — and afterwards no session carries the old token any more, so
the old token is rejected by the stateful gateway: the refresh neither
"records a new Session" nor "leaves the old session valid". -/
theorem c6_refresh_no_new_session_row :
    (refreshToken dbW secretW 100 (some tokenW)).1.status = 200 ∧
    (refreshToken dbW secretW 100 (some tokenW)).2.sessions.length =
      dbW.sessions.length ∧
    (refreshToken dbW secretW 100 (some tokenW)).2.sessions.all
      (fun s => s.token != tokenW) = true ∧
    authenticateToken (refreshToken dbW secretW 100 (some tokenW)).2
      secretW 100 (some tokenW) =
      .rejected (.mkErr 403 "Invalid or expired token") :=
  ⟨by decide, by decide, by decide, by decide⟩

/-- C6 (amended): `refreshToken` requires the old token to verify and the
referenced user to be active, answers 200 with a freshly minted token, and
then rewrites the token column of every active session row of that user in
place: the session count is unchanged (no new Session row), every active
session of the user now carries the new token, and sessions of other users
are untouched. -/
theorem c6_refresh_updates_sessions_in_place (db : DB) (secret : String)
    (now : Nat) (t : Token) (c : Claims)
    (hv : jwtVerify t secret now = .ok c)
    (hu : db.users.any (fun u => u.id == c.userId && u.isActive) = true) :
    (refreshToken db secret now (some t)).1 =
      { status := 200, error := none, message := none,
        token := some (generateToken c.userId now secret) } ∧
    (refreshToken db secret now (some t)).2.sessions.length =
      db.sessions.length ∧
    (∀ s ∈ (refreshToken db secret now (some t)).2.sessions,
      s.userId = c.userId → s.isActive = true →
      s.token = generateToken c.userId now secret) ∧
    (∀ s ∈ db.sessions, s.userId ≠ c.userId →
      s ∈ (refreshToken db secret now (some t)).2.sessions) := by
  simp only [refreshToken, hv, hu, if_true]
  refine ⟨by trivial, by simp, ?_, ?_⟩
  · intro s hs h1 h2
    obtain ⟨x, hx, rfl⟩ := List.mem_map.mp hs
    by_cases hcond : (x.userId == c.userId && x.isActive) = true
    · simp [hcond]
    · rw [if_neg hcond] at h1 h2
      exact absurd (by simp [h1, h2]) hcond
  · intro s hs hne
    refine List.mem_map.mpr ⟨s, hs, ?_⟩
    have hb : (s.userId == c.userId) = false := by
      simpa using hne
    simp [hb]

/-- Witness for C6's amended theorem at the fixture state. -/
theorem c6_refresh_updates_sessions_in_place_witness :
    (refreshToken dbW secretW 100 (some tokenW)).1 =
      { status := 200, error := none, message := none,
        token := some (generateToken 1 100 secretW) } ∧
    (refreshToken dbW secretW 100 (some tokenW)).2.sessions.length =
      dbW.sessions.length ∧
    (∀ s ∈ (refreshToken dbW secretW 100 (some tokenW)).2.sessions,
      s.userId = 1 → s.isActive = true →
      s.token = generateToken 1 100 secretW) ∧
    (∀ s ∈ dbW.sessions, s.userId ≠ 1 →
      s ∈ (refreshToken dbW secretW 100 (some tokenW)).2.sessions) :=
  c6_refresh_updates_sessions_in_place dbW secretW 100 tokenW
    tokenW.claims rfl (by decide)

/-! ### C7 — login and deactivated accounts -/

/-- The fixture user, soft-deactivated. -/
def userD : UserRow := { userW with isActive := false }

def dbD : DB :=
  { users := [userD], sessions := [], nextUserId := 2, nextSessionId := 1 }

/-- C7 counterexample: the authRoutes login controller (part_002) has no
`isActive` filter in its user lookup, so a deactivated account presenting
the correct password receives a 200 response carrying a token. -/
theorem c7_deactivated_login_gets_token :
    userD.isActive = false ∧
    (loginUser dbD secretW 0 "a@x.com" "password123").status = 200 ∧
    (loginUser dbD secretW 0 "a@x.com" "password123").token =
      some (generateToken 1 0 secretW) :=
  ⟨rfl, by decide, by decide⟩

/-- C7 (amended): the inline server.js login handler restricts its lookup
with `isActive = 1`, so an email whose every matching user is deactivated
fails with exactly the nonexistent-email response; the authRoutes
controller `loginUser` has no such filter and returns a token when the
deactivated account's password is correct. -/
theorem c7_server_login_filters_inactive (db : DB) (secret : String)
    (now : Nat) (e p : String) (dev ip ua : Option String) :
    ((∀ u ∈ db.users, emailCi u.email e = true → u.isActive = false) →
      (serverLogin db secret now e p dev ip ua).1 =
        .mkErr 400 "Invalid credentials") ∧
    (∀ u rest, usersByEmail db e = u :: rest → u.isActive = false →
      u.password = some (bcryptHash p) → e ≠ "" → p ≠ "" →
      loginUser db secret now e p =
        { status := 200, error := none,
          message := some "Login successful",
          token := some (generateToken u.id now secret) }) := by
  constructor
  · intro hall
    have hnil :
        db.users.filter (fun u => emailCi u.email e && u.isActive) = [] := by
      rw [List.filter_eq_nil_iff]
      intro a ha hb
      rw [Bool.and_eq_true] at hb
      have := hall a ha hb.1
      rw [this] at hb
      exact Bool.false_ne_true hb.2
    simp [serverLogin, hnil]
  · intro u rest hcons hin hpw he hp
    simp [loginUser, he, hp, hcons, bcryptCompare, hpw]

/-- Witness for C7's amended theorem at the deactivated-user fixture. -/
theorem c7_server_login_filters_inactive_witness :
    (serverLogin dbD secretW 0 "a@x.com" "password123"
        none none none).1 = .mkErr 400 "Invalid credentials" ∧
    loginUser dbD secretW 0 "a@x.com" "password123" =
      { status := 200, error := none, message := some "Login successful",
        token := some (generateToken 1 0 secretW) } := by
  have h := c7_server_login_filters_inactive dbD secretW 0
    "a@x.com" "password123" none none none
  exact ⟨h.1 (by decide),
    h.2 userD [] (by decide) rfl rfl (by decide) (by decide)⟩

/-! ### C8 — logout idempotence and totality -/

/-- C8 counterexample: the POST /api/auth/logout route of src/server.js is
guarded by the stateful `authenticateToken`, so presenting an
already-revoked token answers 403, not the claimed 200. -/
theorem c8_server_logout_route_rejects_revoked :
    (revokeToken dbW tokenW).sessions.all (fun s => !s.isActive) = true ∧
    (serverLogoutRoute (revokeToken dbW tokenW) secretW 100
        (some tokenW)).1.status = 403 ∧
    (serverLogoutRoute (revokeToken dbW tokenW) secretW 100
        (some tokenW)).1.status ≠ 200 :=
  ⟨by decide, by decide, by decide⟩

/-- The revoke UPDATE is idempotent on the store. -/
theorem revoke_idem (db : DB) (t : Token) :
    revokeToken (revokeToken db t) t = revokeToken db t := by
  simp only [revokeToken, List.map_map]
  congr 1
  apply List.map_congr_left
  intro s _
  by_cases h : s.token == t
  · simp [Function.comp, h]
  · simp [Function.comp, h]

/-- C8 (amended): the revoke operation itself (`logoutUser` of part_002)
is idempotent and total: it answers 200 for any bearer (including revoked
or unknown tokens and a missing header), never adds or removes session
rows, leaves every session with a different token unchanged, and running
it twice equals running it once. The HTTP route of src/server.js composes
it with the stateful guard, which rejects a revoked token first (the
counterexample), so the 200-idempotence holds at the operation, not on
that route. -/
theorem c8_logout_idempotent_total (db : DB) (bearer : Option Token) :
    (logoutUser db bearer).1.status = 200 ∧
    (logoutUser db bearer).2.sessions.length = db.sessions.length ∧
    (∀ t, bearer = some t → ∀ s ∈ db.sessions, s.token ≠ t →
      s ∈ (logoutUser db bearer).2.sessions) ∧
    logoutUser (logoutUser db bearer).2 bearer = logoutUser db bearer := by
  cases bearer with
  | none =>
    refine ⟨rfl, rfl, ?_, rfl⟩
    intro t ht
    exact absurd ht (by simp)
  | some t =>
    refine ⟨rfl, by simp [logoutUser, revokeToken], ?_, ?_⟩
    · intro t' ht' s hs hne
      injection ht' with h
      subst h
      simp only [logoutUser, revokeToken]
      refine List.mem_map.mpr ⟨s, hs, ?_⟩
      have hb : (s.token == t) = false := by simpa using hne
      simp [hb]
    · simp only [logoutUser]
      rw [revoke_idem]

/-- Witness for C8's amended theorem at the fixture state. -/
theorem c8_logout_idempotent_total_witness :
    (logoutUser dbW (some tokenW)).1.status = 200 ∧
    (logoutUser dbW (some tokenW)).2.sessions.length =
      dbW.sessions.length ∧
    (∀ t, (some tokenW : Option Token) = some t → ∀ s ∈ dbW.sessions,
      s.token ≠ t → s ∈ (logoutUser dbW (some tokenW)).2.sessions) ∧
    logoutUser (logoutUser dbW (some tokenW)).2 (some tokenW) =
      logoutUser dbW (some tokenW) :=
  c8_logout_idempotent_total dbW (some tokenW)

/-! ### C9 — startup failure handling -/

/-- C9 counterexample: src/server.js binds the HTTP listener during module
evaluation, before the initial-connect outcome can be observed, so on a
failed initial connect the trace contains a `listen` event — the process
does not exit "instead of starting the HTTP listener". -/
theorem c9_server_listener_starts_despite_failed_connect :
    serverStartupTrace false = [.listen, .exitProcess 1] ∧
    StartupEvent.listen ∈ serverStartupTrace false :=
  ⟨rfl, by decide⟩

/-- C9 (amended): on a failed initial connect both entry points exit with
code 1 — part_003 without ever binding the listener, server.js only after
having already bound it — and a post-startup store failure on a request is
answered with a 500 by the handler, which never terminates the process. -/
theorem c9_startup_fatal_vs_request_500 :
    part003StartupTrace false = [.exitProcess 1] ∧
    StartupEvent.listen ∉ part003StartupTrace false ∧
    StartupEvent.exitProcess 1 ∈ serverStartupTrace false ∧
    healthCheck false = .mkErr 500 "Database connection failed" ∧
    (healthCheck true).status = 200 :=
  ⟨rfl, by decide, by decide, rfl, rfl⟩

/-! ### C5 — idempotence of the social identity linker -/

/-- When no row matched the social pair before the linking UPDATE, the
social lookup after the UPDATE finds exactly the first row whose id the
UPDATE targeted, now linked. -/
theorem find_social_map_link (pid pr : String) (av : Option String)
    (k : Nat) (l : List UserRow)
    (hall : ∀ u ∈ l, socialMatch pid pr u = false) :
    (l.map (fun v => if v.id == k then linkSocial pid pr av v else v)).find?
        (socialMatch pid pr) =
      (l.find? (fun v => v.id == k)).map (linkSocial pid pr av) := by
  induction l with
  | nil => rfl
  | cons a rest ih =>
    have ha := hall a (List.mem_cons_self a rest)
    have hrest : ∀ u ∈ rest, socialMatch pid pr u = false :=
      fun u hu => hall u (List.mem_cons_of_mem a hu)
    by_cases hk : (a.id == k) = true
    · have h1 : socialMatch pid pr (linkSocial pid pr av a) = true := by
        simp [socialMatch, linkSocial]
      rw [List.map_cons, if_pos hk, List.find?_cons_of_pos _ h1,
        List.find?_cons_of_pos (p := fun v : UserRow => v.id == k) _ hk,
        Option.map_some']
    · rw [List.map_cons, if_neg hk,
        List.find?_cons_of_neg _ (by simp [ha]),
        List.find?_cons_of_neg (p := fun v : UserRow => v.id == k) _
          (by simpa using hk)]
      exact ih hrest

/-- When no existing row matched the social pair, the social lookup on the
store extended with the freshly inserted (matching) row returns that
row. -/
theorem find_social_append_new (pid pr : String) (l : List UserRow)
    (nu : UserRow) (hall : ∀ u ∈ l, socialMatch pid pr u = false)
    (hnu : socialMatch pid pr nu = true) :
    (l ++ [nu]).find? (socialMatch pid pr) = some nu := by
  induction l with
  | nil => rw [List.nil_append, List.find?_cons_of_pos _ hnu]
  | cons a rest ih =>
    have ha := hall a (List.mem_cons_self a rest)
    rw [List.cons_append, List.find?_cons_of_neg _ (by simp [ha])]
    exact ih (fun u hu => hall u (List.mem_cons_of_mem a hu))

/-- C5: when `findOrCreateUser` returns a user, it has created at most one
new User row, and calling it again with the identical profile performs no
further store change and returns a user with the same id. -/
theorem c5_find_or_create_user_idempotent (db : DB) (p : Profile)
    (provider : String) (u1 : UserRow) (db1 : DB)
    (h : findOrCreateUser p provider db = .ok (u1, db1)) :
    db1.users.length ≤ db.users.length + 1 ∧
    ∃ u2, findOrCreateUser p provider db1 = .ok (u2, db1) ∧
      u2.id = u1.id := by
  unfold findOrCreateUser at h
  cases hfind : db.users.find? (socialMatch p.id provider) with
  | some u =>
    rw [hfind] at h
    injection h with h2
    rw [Prod.mk.injEq] at h2
    obtain ⟨rfl, rfl⟩ := h2
    refine ⟨Nat.le_succ _, u, ?_, rfl⟩
    unfold findOrCreateUser
    rw [hfind]
  | none =>
    rw [hfind] at h
    have hall : ∀ v ∈ db.users, socialMatch p.id provider v = false := by
      intro v hv
      simpa using List.find?_eq_none.mp hfind v hv
    cases hemail : emailLookup p db with
    | some u =>
      rw [hemail] at h
      injection h with h2
      rw [Prod.mk.injEq] at h2
      obtain ⟨rfl, rfl⟩ := h2
      have hu_mem : u ∈ db.users := by
        unfold emailLookup at hemail
        by_cases ht : p.emailTruthy
        · rw [if_pos ht] at hemail
          cases hev : p.emailVal with
          | some e =>
            rw [hev] at hemail
            exact List.mem_of_find?_eq_some hemail
          | none =>
            rw [hev] at hemail
            exact absurd hemail (by simp)
        · rw [if_neg ht] at hemail
          exact absurd hemail (by simp)
      constructor
      · have hlen : (linkUpdate p provider u.id db).users.length =
            db.users.length := by
          simp [linkUpdate]
        rw [hlen]
        exact Nat.le_succ _
      · have hfindid : ∃ w, db.users.find? (fun v => v.id == u.id) =
            some w := by
          cases hw : db.users.find? (fun v => v.id == u.id) with
          | some w => exact ⟨w, rfl⟩
          | none =>
            have := List.find?_eq_none.mp hw u hu_mem
            simp at this
        obtain ⟨w, hw⟩ := hfindid
        have hwid : w.id = u.id := by
          simpa using List.find?_some hw
        have hkey : (linkUpdate p provider u.id db).users.find?
            (socialMatch p.id provider) =
            some (linkSocial p.id provider p.photos.head? w) := by
          simp only [linkUpdate]
          rw [find_social_map_link p.id provider p.photos.head? u.id
            db.users hall, hw, Option.map_some']
        refine ⟨linkSocial p.id provider p.photos.head? w, ?_, ?_⟩
        · unfold findOrCreateUser
          rw [hkey]
        · simp [linkSocial, hwid]
    | none =>
      rw [hemail] at h
      cases hev : p.emailVal with
      | none =>
        rw [hev] at h
        exact absurd h (by simp)
      | some e =>
        rw [hev] at h
        dsimp only at h
        by_cases hdup : (db.users.filter (fun u => emailCi u.email e)) ≠ []
        · rw [if_pos hdup] at h
          exact absurd h (by simp)
        · rw [if_neg hdup] at h
          have hmem : mkSocialUser p provider db.nextUserId e ∈
              (insertUser db (mkSocialUser p provider db.nextUserId
                e)).users := by
            simp [insertUser]
          cases hfetch : (insertUser db (mkSocialUser p provider
              db.nextUserId e)).users.find?
              (fun v => v.id == db.nextUserId) with
          | none =>
            have := List.find?_eq_none.mp hfetch _ hmem
            simp [mkSocialUser] at this
          | some fetched =>
            rw [hfetch] at h
            injection h with h2
            rw [Prod.mk.injEq] at h2
            obtain ⟨rfl, rfl⟩ := h2
            have hfid : fetched.id = db.nextUserId := by
              simpa using List.find?_some hfetch
            constructor
            · simp [insertUser]
            · have hnu_social : socialMatch p.id provider
                  (mkSocialUser p provider db.nextUserId e) = true := by
                simp [socialMatch, mkSocialUser]
              have hsnd : (insertUser db (mkSocialUser p provider
                  db.nextUserId e)).users.find?
                  (socialMatch p.id provider) =
                  some (mkSocialUser p provider db.nextUserId e) := by
                simp only [insertUser]
                exact find_social_append_new p.id provider db.users _
                  hall hnu_social
              refine ⟨mkSocialUser p provider db.nextUserId e, ?_, ?_⟩
              · unfold findOrCreateUser
                rw [hsnd]
              · rw [hfid]
                rfl

/-- Witness for C5 at a concrete profile and an empty store: the first
call inserts one user, the second returns the same id without change. -/
theorem c5_find_or_create_user_idempotent_witness :
    (findOrCreateUser
        { id := "g1", emails := ["new@x.com"], givenName := some "N",
          familyName := some "M", displayName := none, photos := [] }
        "google" dbEmpty).isOk = true ∧
    ((insertUser dbEmpty (mkSocialUser
        { id := "g1", emails := ["new@x.com"], givenName := some "N",
          familyName := some "M", displayName := none, photos := [] }
        "google" 1 "new@x.com")).users.length ≤ dbEmpty.users.length + 1 ∧
      ∃ u2, findOrCreateUser
          { id := "g1", emails := ["new@x.com"], givenName := some "N",
            familyName := some "M", displayName := none, photos := [] }
          "google" (insertUser dbEmpty (mkSocialUser
            { id := "g1", emails := ["new@x.com"], givenName := some "N",
              familyName := some "M", displayName := none,
              photos := [] } "google" 1 "new@x.com")) =
          .ok (u2, insertUser dbEmpty (mkSocialUser
            { id := "g1", emails := ["new@x.com"], givenName := some "N",
              familyName := some "M", displayName := none,
              photos := [] } "google" 1 "new@x.com")) ∧
        u2.id = (mkSocialUser
          { id := "g1", emails := ["new@x.com"], givenName := some "N",
            familyName := some "M", displayName := none, photos := [] }
          "google" 1 "new@x.com").id) := by
  constructor
  · decide
  · exact c5_find_or_create_user_idempotent dbEmpty
      { id := "g1", emails := ["new@x.com"], givenName := some "N",
        familyName := some "M", displayName := none, photos := [] }
      "google" (mkSocialUser
        { id := "g1", emails := ["new@x.com"], givenName := some "N",
          familyName := some "M", displayName := none, photos := [] }
        "google" 1 "new@x.com") _ rfl

/-! ### C10 — profile update frame -/

/-- A column outside the allow-list is never written by the profile
UPDATE, whatever the request body contains. -/
theorem applyProfileUpdate_not_allowed (col : String)
    (hcol : allowedUpdates.contains col = false)
    (row : String → Option String) (body : List (String × String)) :
    applyProfileUpdate row body col = row col := by
  have hnone : (profileSetColumns body).reverse.find?
      (fun kv => kv.1 == col) = none := by
    rw [List.find?_eq_none]
    intro kv hkv hb
    rw [List.mem_reverse] at hkv
    have hmem := List.mem_filter.mp hkv
    have hkc : kv.1 = col := by simpa using hb
    rw [hkc, hcol] at hmem
    exact Bool.false_ne_true hmem.2
  cases he : (profileSetColumns body).isEmpty with
  | true => simp [applyProfileUpdate, he]
  | false =>
    simp only [applyProfileUpdate, he, Bool.false_eq_true, if_false]
    rw [hnone]

/-- C10: the PUT /api/user/profile handler copies into the UPDATE only the
body keys on its fixed allow-list, so the user's email, password hash,
social identity pair, email-verified flag and active flag are unchanged by
the operation regardless of the request body. -/
theorem c10_profile_update_frame (row : String → Option String)
    (body : List (String × String)) :
    applyProfileUpdate row body "email" = row "email" ∧
    applyProfileUpdate row body "password" = row "password" ∧
    applyProfileUpdate row body "socialId" = row "socialId" ∧
    applyProfileUpdate row body "socialProvider" = row "socialProvider" ∧
    applyProfileUpdate row body "emailVerified" = row "emailVerified" ∧
    applyProfileUpdate row body "isActive" = row "isActive" :=
  ⟨applyProfileUpdate_not_allowed "email" (by decide) row body,
   applyProfileUpdate_not_allowed "password" (by decide) row body,
   applyProfileUpdate_not_allowed "socialId" (by decide) row body,
   applyProfileUpdate_not_allowed "socialProvider" (by decide) row body,
   applyProfileUpdate_not_allowed "emailVerified" (by decide) row body,
   applyProfileUpdate_not_allowed "isActive" (by decide) row body⟩

end BizzLeap
